import Mathlib

/-!
Verification of the rawzeo streaming frame decoder.

This file gives a shallow embedding of the rawzeo repository's decoder
(`src/main.rs`, function `parse`, plus the enumeration tables of
`src/lib.rs`) and proves properties of that embedding.

Modelling conventions:
* Bytes and machine integers are `Nat`; wrapping machine arithmetic is
  written with explicit `% 2^w` (release-profile Rust semantics, as the
  shipped binary wraps on overflow).
* The `CircularBuffer` ring is a `List Nat` (front of the buffer = head of
  the list); `pop_front` is head/tail, `push_front` is cons.
* Calls of `Option::unwrap` on `pop_front` that can fail are modelled with
  an explicit `panic` outcome.  The ten header pops after the
  `ring.len() < 14` guard can never fail in the source; they are modelled
  by one pattern match whose short-list arm is unreachable under the guard.
* The `while` loop of `parse` is modelled with a fuel parameter initialised
  to the length of the ring; each completed iteration consumes at least 12
  bytes, so the fuel can never run out on the paths proved below.
-/

namespace Rawzeo

/-- `DataType` from `src/lib.rs`: all the types of events the base may send,
with the catch-all `Invalid` variant carrying the raw byte. -/
inductive DataType where
  | Event
  | SliceEnd
  | Version
  | Waveform
  | FrequencyBins
  | Sqi
  | ZeoTimestamp
  | Impedance
  | BadSignal
  | SleepStage
  | Invalid (b : Nat)
deriving DecidableEq, Repr

/-- `impl From<u8> for DataType` from `src/lib.rs`. -/
def DataType.fromByte (b : Nat) : DataType :=
  match b with
  | 0x00 => .Event
  | 0x02 => .SliceEnd
  | 0x03 => .Version
  | 0x80 => .Waveform
  | 0x83 => .FrequencyBins
  | 0x84 => .Sqi
  | 0x8A => .ZeoTimestamp
  | 0x97 => .Impedance
  | 0x9C => .BadSignal
  | 0x9D => .SleepStage
  | _ => .Invalid b

/-- The `if let DataType::Invalid(_b) = datatype` test of `src/main.rs`. -/
def DataType.isInvalid : DataType → Bool
  | .Invalid _ => true
  | _ => false

/-- `EventType` from `src/lib.rs`: all the types of events that may be
fired, with the declared `repr(u8)` discriminants recorded by
`EventType.discriminant` below. -/
inductive EventType where
  | NightStart
  | SleepOnset
  | HeadbandDocked
  | HeadbandUnDocked
  | AlarmOff
  | AlarmSnooze
  | AlarmPlay
  | NightEnd
  | NewHeadband
  | Invalid (b : Nat)
deriving DecidableEq, Repr

/-- The declared `repr(u8)` discriminant of each `EventType` variant, as
written in the enum declaration of `src/lib.rs` (`NightStart = 0x05`, ...,
`HeadbandUnDocked = 0x0F`, ..., `Invalid(u8) = 0xFF`). -/
def EventType.discriminant : EventType → Nat
  | .NightStart => 0x05
  | .SleepOnset => 0x07
  | .HeadbandDocked => 0x0E
  | .HeadbandUnDocked => 0x0F
  | .AlarmOff => 0x10
  | .AlarmSnooze => 0x11
  | .AlarmPlay => 0x13
  | .NightEnd => 0x15
  | .NewHeadband => 0x24
  | .Invalid _ => 0xFF

/-- `impl From<u8> for EventType` from `src/lib.rs`.  Note the `0x8F`
arm for `HeadbandUnDocked`. -/
def EventType.fromByte (b : Nat) : EventType :=
  match b with
  | 0x05 => .NightStart
  | 0x07 => .SleepOnset
  | 0x0E => .HeadbandDocked
  | 0x8F => .HeadbandUnDocked
  | 0x10 => .AlarmOff
  | 0x11 => .AlarmSnooze
  | 0x13 => .AlarmPlay
  | 0x15 => .NightEnd
  | 0x24 => .NewHeadband
  | _ => .Invalid b

/-- `u16::from_le_bytes([a, b])` for bytes `a`, `b`. -/
def u16le (a b : Nat) : Nat := a + 256 * b

/-- `u32::from_le_bytes([a, b, c, d])` for bytes `a`..`d`. -/
def u32le (a b c d : Nat) : Nat := a + 256 * b + 65536 * c + 16777216 * d

/-- Bitwise complement `!x` of a `u16` value `x ≤ 65535`. -/
def not16 (x : Nat) : Nat := 65535 - x

/-- `u32::saturating_add(1)`. -/
def satAdd1 (x : Nat) : Nat := min (x + 1) 4294967295

/-- The marker scan of `parse` step 1 (`src/main.rs`, the `'inner` loop):
the two-byte window `start` is shifted one byte at a time; each iteration
does `start.swap(0, 1); start[1] = ring.pop_front().unwrap()` and stops
when `start == b"A4"` (`[0x41, 0x34]`).  After the swap and the overwrite
the window is `[s1, b]`, so the match condition is `s1 = 0x41 ∧ b = 0x34`.
`none` models the `unwrap` panic when the ring is exhausted mid-scan. -/
def markerScanAux : Nat → Nat → List Nat → Option (List Nat)
  | _, _, [] => none
  | _s0, s1, b :: rest =>
    if s1 == 0x41 && b == 0x34 then some rest else markerScanAux s1 b rest

/-- The marker scan started on the fresh window `start = [0; 2]`. -/
def markerScan (ring : List Nat) : Option (List Nat) := markerScanAux 0 0 ring

/-- Whether a list of bytes contains the two adjacent bytes `0x41 0x34`
(the marker `"A4"`). -/
def containsMarker : List Nat → Bool
  | a :: b :: t => (a == 0x41 && b == 0x34) || containsMarker (b :: t)
  | _ => false

/-- The sequence diagnostic of `parse` step 5 (`src/main.rs`): when a
previous sequence number exists and `pseq.wrapping_add(1) != seqnum`, the
number of lost sequences `seqnum - prev_seq1` (wrapping `u8` subtraction)
is reported.  The model accumulates the reported numbers in a list, in the
order the `println!` diagnostics would be emitted. -/
def seqGaps (prev : Option Nat) (gaps : List Nat) (seqnum : Nat) : List Nat :=
  match prev with
  | some p =>
    if (p + 1) % 256 ≠ seqnum then
      gaps ++ [(seqnum + 256 - (p + 1) % 256) % 256]
    else gaps
  | none => gaps

/-- The `u32::from_le_bytes` extraction applied to the payload for
`ZeoTimestamp` and `Version` frames (`src/main.rs`): three
`datavec.pop_front().unwrap()` followed by `datavec.pop_front().unwrap_or(0)`.
`none` models the panic of the third `unwrap` when the payload holds fewer
than 3 bytes; when the fourth byte is absent it is defaulted to 0.  The
returned list is the payload left after the pops. -/
def u32FromPayload (datavec : List Nat) : Option (Nat × List Nat) :=
  match datavec with
  | d0 :: d1 :: d2 :: rest => some (u32le d0 d1 d2 (rest.getD 0 0), rest.drop 1)
  | _ => none

/-- The 4-way timestamp disambiguation of the `ZeoTimestamp` branch of
`parse` (`src/main.rs`, the CHECK A/B/C/D chain): compare the low 8 bits of
`zeo_time` (after no correction, `saturating_sub(1)`, `saturating_add(1)`)
against the frame's time-low byte, else take `zeo_time` raw. -/
def reconcile (zeo_time tt_lb : Nat) : Nat :=
  if zeo_time % 256 = tt_lb then zeo_time
  else if (zeo_time - 1) % 256 = tt_lb then zeo_time - 1
  else if satAdd1 zeo_time % 256 = tt_lb then satAdd1 zeo_time
  else zeo_time

/-- Outcome of one `parse` call: `ok` models `Ok` (with `none` for
`Ok(None)` and `some` for `Ok(Some(tuple))`), `err` models `Err(&str)`,
`panic` models a `unwrap` panic, and `fuelOut` is an artifact of the fuel
encoding that is unreachable for fuel at least the ring length. -/
inductive ParseOutcome where
  | ok (res : Option (Nat × Nat × Nat × DataType × List Nat))
  | err (msg : String)
  | panic
  | fuelOut
deriving DecidableEq, Repr

/-- The full observable result of a `parse` call: the updated
`prev_seqnum`, the emitted lost-sequence diagnostics, the final contents
of the ring, and the returned value. -/
structure ParseResult where
  prev : Option Nat
  gaps : List Nat
  ring : List Nat
  out : ParseOutcome
deriving DecidableEq, Repr

/-- Result of one iteration of the `while` loop of `parse`.  The
iteration itself never reads the sequence state, so instead of a final
`ParseResult` it returns instructions for the loop:
`haltKeep ring out` means the call returns `out` with `prev_seqnum` and
the diagnostics untouched (the sequence number was not reached);
`haltSeq seqnum ring out` means the call returns `out` after the
iteration parsed sequence number `seqnum` (so `prev_seqnum := some seqnum`
and the gap diagnostic for `seqnum` is emitted);
`cont` means the loop continues with the updated loop-carried state. -/
inductive StepRes where
  | haltKeep (ring : List Nat) (out : ParseOutcome)
  | haltSeq (seqnum : Nat) (ring : List Nat) (out : ParseOutcome)
  | cont (seqnum tt_ss : Nat) (datatype : DataType) (datavec : List Nat)
      (zeo_version zeo_time_full : Nat) (ring : List Nat)
deriving DecidableEq, Repr

/-- One iteration of the `while ring.len() > 15` loop of `parse`
(`src/main.rs`), run when the ring holds more than 15 bytes.  Of the
loop-carried locals only `zeo_version` and `zeo_time_full` are read by an
iteration (the body overwrites `tt_ss`, `datatype` and `datavec` before
using them), so only those two are arguments here. -/
def parseStep (zeo_version zeo_time_full : Nat) (ring : List Nat) : StepRes :=
  -- 1. parse message start
  match markerScan ring with
  | none => .haltKeep [] .panic
  | some r1 =>
    -- make sure there's enough bytes left, otherwise refill the
    -- message start and return None
    if r1.length < 14 then
      .haltKeep (0x41 :: 0x34 :: r1) (.ok none)
    else
      -- steps 2-6 pop ten header bytes: checksum, length, inverse
      -- length, time-low, sub-seconds, sequence number, data type
      match r1 with
      | cksum :: dl0 :: dl1 :: il0 :: il1 :: tt_lb :: s0 :: s1 :: seqnum :: dtype :: rest =>
        let dl := u16le dl0 dl1
        let inv_dl := u16le il0 il1
        if dl ≠ not16 inv_dl then
          .haltKeep (tt_lb :: s0 :: s1 :: seqnum :: dtype :: rest)
            (.err "Invalid message length.")
        else
          let tt_ss2 := u16le s0 s1
          let datatype2 := DataType.fromByte dtype
          -- 7. data bytes: `datalen = dl - 1` is wrapping u16
          -- subtraction; a short ring yields a short `datavec` and a
          -- printed warning, never a panic
          let datalen := (dl + 65535) % 65536
          let datavec2 := rest.take datalen
          let ring2 := rest.drop datalen
          -- 8. verify checksum
          if (dtype + datavec2.sum) % 256 ≠ cksum then
            .haltSeq seqnum ring2 (.err "Invalid checksum.")
          else if datatype2.isInvalid then
            .haltSeq seqnum ring2 (.err "Bad datatype: \x7b\x7bb:02X\x7d\x7d")
          else if datatype2 = DataType.ZeoTimestamp then
            match u32FromPayload datavec2 with
            | none => .haltSeq seqnum ring2 .panic
            | some (zeo_time, datavec3) =>
              .cont seqnum tt_ss2 datatype2 datavec3
                zeo_version (reconcile zeo_time tt_lb) ring2
          else if datatype2 = DataType.Version then
            match u32FromPayload datavec2 with
            | none => .haltSeq seqnum ring2 .panic
            | some (ver, datavec3) =>
              .cont seqnum tt_ss2 datatype2 datavec3 ver zeo_time_full ring2
          else
            .cont seqnum tt_ss2 datatype2 datavec2 zeo_version zeo_time_full ring2
      | _ =>
        -- unreachable: the branch above requires `14 ≤ r1.length`,
        -- so the ten header pops cannot run out of bytes
        .haltKeep r1 .panic

/-- The `while ring.len() > 15` loop of `parse` (`src/main.rs`).  The
sequence-state update `*prev_seqnum = Some(seqnum)` and the gap
diagnostic of step 5 are committed here from the `StepRes` instructions.
One fuel unit is spent per iteration; each iteration that continues the
loop consumes at least 12 bytes from the ring, so fuel equal to the ring
length never runs out. -/
def parseLoop : Nat → Option Nat → List Nat → Nat → DataType → List Nat →
    Nat → Nat → List Nat → ParseResult
  | 0, prev, gaps, tt_ss, datatype, datavec, zeo_version, zeo_time_full, ring =>
    if ring.length ≤ 15 then
      ⟨prev, gaps, ring, .ok (some (zeo_time_full, tt_ss, zeo_version, datatype, datavec))⟩
    else
      ⟨prev, gaps, ring, .fuelOut⟩
  | fuel + 1, prev, gaps, tt_ss, datatype, datavec, zeo_version, zeo_time_full, ring =>
    if ring.length ≤ 15 then
      ⟨prev, gaps, ring, .ok (some (zeo_time_full, tt_ss, zeo_version, datatype, datavec))⟩
    else
      match parseStep zeo_version zeo_time_full ring with
      | .haltKeep ring2 out => ⟨prev, gaps, ring2, out⟩
      | .haltSeq seqnum ring2 out => ⟨some seqnum, seqGaps prev gaps seqnum, ring2, out⟩
      | .cont seqnum tt_ss2 datatype2 datavec2 zeo_version2 zeo_time_full2 ring2 =>
        parseLoop fuel (some seqnum) (seqGaps prev gaps seqnum) tt_ss2 datatype2
          datavec2 zeo_version2 zeo_time_full2 ring2

/-- `parse` from `src/main.rs`: the locals start as
`tt_ss = 0`, `datatype = DataType::Invalid(255)`, `datavec = []`,
`zeo_version = 0`, `zeo_time_full = 0`, and the loop runs on the ring. -/
def parse (prev : Option Nat) (ring : List Nat) : ParseResult :=
  parseLoop ring.length prev [] 0 (DataType.Invalid 255) [] 0 0 ring

/-- The serial wire format `A 4 c ll LL T tt s i d...` described in the
doc comment of `parse` (`src/main.rs`): marker `"A4"`, checksum byte,
2-byte length (LSB first) where the length counts the identifier plus the
data block, its bitwise inverse, time-low byte, 2-byte sub-second counter,
sequence number, data type identifier, then the data bytes. -/
def mkFrame (cksum tt_lb ss0 ss1 seqnum dtype : Nat) (payload : List Nat) : List Nat :=
  0x41 :: 0x34 :: cksum ::
    ((payload.length + 1) % 256) :: ((payload.length + 1) / 256) ::
    ((65535 - (payload.length + 1)) % 256) :: ((65535 - (payload.length + 1)) / 256) ::
    tt_lb :: ss0 :: ss1 :: seqnum :: dtype :: payload

/-! ## Lemmas about the marker scan -/

/-- A ring that begins with the marker is aligned by the scan at once. -/
lemma markerScan_cons (l : List Nat) : markerScan (0x41 :: 0x34 :: l) = some l := rfl

/-- Prepending a `0` to a marker-free byte list keeps it marker-free. -/
lemma containsMarker_cons_zero (g : List Nat) (h : containsMarker g = false) :
    containsMarker (0 :: g) = false := by
  cases g with
  | nil => rfl
  | cons b t => simpa [containsMarker] using h

/-- The scan run with window byte `s1` over `g ++ marker ++ rest` stops
exactly after the marker when no match can fire inside `s1 :: g`. -/
lemma markerScanAux_append (rest : List Nat) :
    ∀ (g : List Nat) (s0 s1 : Nat), containsMarker (s1 :: g) = false →
      markerScanAux s0 s1 (g ++ 0x41 :: 0x34 :: rest) = some rest := by
  intro g
  induction g with
  | nil =>
    intro s0 s1 h
    simp only [List.nil_append, markerScanAux]
    have hb : ((0x41 : Nat) == 0x34) = false := by decide
    simp only [containsMarker] at h
    simp [h, hb, markerScanAux]
  | cons a g ih =>
    intro s0 s1 h
    simp only [containsMarker, Bool.or_eq_false_iff] at h
    simp only [List.cons_append, markerScanAux, h.1, if_false]
    exact ih s1 a (by simpa [containsMarker] using h.2)

/-- The marker scan on a ring made of marker-free garbage, the marker and
a tail aligns just after the marker. -/
lemma markerScan_past_garbage (g rest : List Nat) (h : containsMarker g = false) :
    markerScan (g ++ 0x41 :: 0x34 :: rest) = some rest :=
  markerScanAux_append rest g 0 0 (containsMarker_cons_zero g h)

end Rawzeo

namespace Rawzeo

/-! ## Step and loop lemmas -/

/-- When at most 15 bytes remain the loop exits at once, whatever the
fuel, returning the carried state. -/
lemma parseLoop_done (fuel : Nat) (prev : Option Nat) (gaps : List Nat)
    (tt_ss : Nat) (datatype : DataType) (datavec : List Nat)
    (zeo_version zeo_time_full : Nat) (ring : List Nat)
    (h : ring.length ≤ 15) :
    parseLoop fuel prev gaps tt_ss datatype datavec zeo_version zeo_time_full ring
      = ⟨prev, gaps, ring,
         .ok (some (zeo_time_full, tt_ss, zeo_version, datatype, datavec))⟩ := by
  cases fuel <;> simp [parseLoop, h]

/-- One iteration on marker-free garbage followed by the marker and fewer
than 14 further bytes: push the marker back and return `Ok(None)`. -/
lemma parseStep_pushback (zeo_version zeo_time_full : Nat) (g rest : List Nat)
    (hg : containsMarker g = false) (hr : rest.length < 14) :
    parseStep zeo_version zeo_time_full (g ++ 0x41 :: 0x34 :: rest)
      = .haltKeep (0x41 :: 0x34 :: rest) (.ok none) := by
  unfold parseStep
  rw [markerScan_past_garbage g rest hg]
  simp [hr]

/-- One iteration on a marker-aligned ring whose length field does not
match the complement of the inverse-length field: exactly the marker, the
checksum byte and the four length bytes are consumed. -/
lemma parseStep_lengthMismatch (zeo_version zeo_time_full : Nat)
    (c a b e f t s0 s1 sq dt : Nat)
    (rest2 : List Nat) (h4 : 4 ≤ rest2.length)
    (hne : u16le a b ≠ not16 (u16le e f)) :
    parseStep zeo_version zeo_time_full
        (0x41 :: 0x34 :: c :: a :: b :: e :: f :: t :: s0 :: s1 :: sq :: dt :: rest2)
      = .haltKeep (t :: s0 :: s1 :: sq :: dt :: rest2)
          (.err "Invalid message length.") := by
  unfold parseStep
  rw [markerScan_cons]
  have hlen : ¬ (c :: a :: b :: e :: f :: t :: s0 :: s1 :: sq :: dt :: rest2).length < 14 := by
    simp only [List.length_cons]
    omega
  simp [hlen, hne]
  omega

/-- One iteration on a single well-formed frame of a recognized data type
that is neither `ZeoTimestamp` nor `Version`: the frame is consumed whole
and the loop continues with the decoded state. -/
lemma parseStep_validFrame (zeo_version zeo_time_full : Nat)
    (tt_lb ss0 ss1 seqnum dtype : Nat)
    (payload : List Nat) (h4 : 4 ≤ payload.length) (h65 : payload.length ≤ 65534)
    (hrec : (DataType.fromByte dtype).isInvalid = false)
    (hts : DataType.fromByte dtype ≠ DataType.ZeoTimestamp)
    (hver : DataType.fromByte dtype ≠ DataType.Version) :
    parseStep zeo_version zeo_time_full
        (mkFrame ((dtype + payload.sum) % 256) tt_lb ss0 ss1 seqnum dtype payload)
      = .cont seqnum (u16le ss0 ss1) (DataType.fromByte dtype) payload
          zeo_version zeo_time_full [] := by
  unfold parseStep
  simp only [mkFrame]
  rw [markerScan_cons]
  have hlen : ¬ payload.length + 1 + 1 + 1 + 1 + 1 + 1 + 1 + 1 + 1 + 1 < 14 := by
    omega
  have hdl : u16le ((payload.length + 1) % 256) ((payload.length + 1) / 256)
      = payload.length + 1 := by
    unfold u16le
    omega
  have hinv : u16le ((65534 - payload.length) % 256) ((65534 - payload.length) / 256)
      = 65534 - payload.length := by
    unfold u16le
    omega
  have hnot : not16 (65534 - payload.length) = payload.length + 1 := by
    unfold not16
    omega
  have hdatalen : (payload.length + 1 + 65535) % 65536 = payload.length := by
    omega
  simp [hlen, hdl, hinv, hnot, hdatalen, hrec, hts, hver, List.take_length,
    List.drop_length]

/-- Decoding one well-formed frame of a recognized data type that is
neither `ZeoTimestamp` nor `Version`: the frame is consumed whole, the
sequence state records the frame's sequence number, and the returned
tuple carries the classified data type and the exact payload. -/
lemma parse_valid_frame (prev : Option Nat) (tt_lb ss0 ss1 seqnum dtype : Nat)
    (payload : List Nat) (h4 : 4 ≤ payload.length) (h65 : payload.length ≤ 65534)
    (hrec : (DataType.fromByte dtype).isInvalid = false)
    (hts : DataType.fromByte dtype ≠ DataType.ZeoTimestamp)
    (hver : DataType.fromByte dtype ≠ DataType.Version) :
    parse prev (mkFrame ((dtype + payload.sum) % 256) tt_lb ss0 ss1 seqnum dtype payload)
      = ⟨some seqnum, seqGaps prev [] seqnum, [],
         .ok (some (0, u16le ss0 ss1, 0, DataType.fromByte dtype, payload))⟩ := by
  have hL : (mkFrame ((dtype + payload.sum) % 256) tt_lb ss0 ss1 seqnum dtype
      payload).length = payload.length + 12 := by
    simp [mkFrame]
  have h16 : ¬ (mkFrame ((dtype + payload.sum) % 256) tt_lb ss0 ss1 seqnum dtype
      payload).length ≤ 15 := by
    rw [hL]
    omega
  obtain ⟨m, hm⟩ : ∃ m, (mkFrame ((dtype + payload.sum) % 256) tt_lb ss0 ss1 seqnum
      dtype payload).length = m + 1 := ⟨payload.length + 11, by rw [hL]⟩
  unfold parse
  rw [hm]
  simp only [parseLoop]
  rw [if_neg h16]
  rw [parseStep_validFrame 0 0 tt_lb ss0 ss1 seqnum dtype payload h4 h65 hrec hts hver]
  simp [parseLoop_done]

/-- The loop's outcome and final ring do not depend on the incoming
sequence state or on already-emitted diagnostics. -/
lemma parseLoop_indep (fuel : Nat) :
    ∀ (tt_ss : Nat) (datatype : DataType) (datavec : List Nat)
      (zv ztf : Nat) (ring : List Nat) (p1 p2 : Option Nat) (g1 g2 : List Nat),
      (parseLoop fuel p1 g1 tt_ss datatype datavec zv ztf ring).out
          = (parseLoop fuel p2 g2 tt_ss datatype datavec zv ztf ring).out ∧
      (parseLoop fuel p1 g1 tt_ss datatype datavec zv ztf ring).ring
          = (parseLoop fuel p2 g2 tt_ss datatype datavec zv ztf ring).ring := by
  induction fuel with
  | zero =>
    intro tt_ss datatype datavec zv ztf ring p1 p2 g1 g2
    simp only [parseLoop]
    split <;> exact ⟨rfl, rfl⟩
  | succ n ih =>
    intro tt_ss datatype datavec zv ztf ring p1 p2 g1 g2
    simp only [parseLoop]
    split
    · exact ⟨rfl, rfl⟩
    · cases hstep : parseStep zv ztf ring with
      | haltKeep ring2 out => exact ⟨rfl, rfl⟩
      | haltSeq s ring2 out => exact ⟨rfl, rfl⟩
      | cont s tt2 dt2 dv2 zv2 ztf2 ring2 =>
        exact ih tt2 dt2 dv2 zv2 ztf2 ring2 (some s) (some s)
          (seqGaps p1 g1 s) (seqGaps p2 g2 s)

/-- `parse`-level form of `parseLoop_indep`: the returned value and the
final ring depend only on the ring contents, never on `prev_seqnum`. -/
lemma parse_indep (ring : List Nat) (p1 p2 : Option Nat) :
    (parse p1 ring).out = (parse p2 ring).out ∧
    (parse p1 ring).ring = (parse p2 ring).ring :=
  parseLoop_indep ring.length 0 (DataType.Invalid 255) [] 0 0 ring p1 p2 [] []

end Rawzeo

namespace Rawzeo

/-! ## Claim theorems -/

/-- Claim C1 (code bug): the 4-way timestamp disambiguation runs only
inside the `ZeoTimestamp` branch, against the frame's own absolute value.
A time-sync frame carrying `0x1003` with time-low byte `0x03` does yield
the full timestamp `0x1003` (the exact-match branch), but a following
`Sqi` data frame with time-low byte `0x04` performs no reconciliation at
all: the returned full timestamp stays `0x1003` instead of the `0x1004`
the specified `+1` branch would produce. -/
theorem reconcile_skipped_for_data_frames :
    parse none (mkFrame 157 3 0 0 5 138 [3, 16, 0, 0])
      = ⟨some 5, [], [], .ok (some (0x1003, 0, 0, DataType.ZeoTimestamp, []))⟩ ∧
    parse none (mkFrame 157 3 0 0 5 138 [3, 16, 0, 0] ++ mkFrame 141 4 0 0 6 132 [9, 0, 0, 0])
      = ⟨some 6, [], [], .ok (some (0x1003, 0, 0, DataType.Sqi, [9, 0, 0, 0]))⟩ ∧
    (0x1003 : Nat) ≠ 0x1004 :=
  ⟨rfl, rfl, by decide⟩

/-- Claim C2 (code bug): a reservoir of 16 bytes containing no `"A4"`
marker makes the scan exhaust the ring and hit the `unwrap` panic instead
of returning the awaiting-more-data outcome. -/
theorem marker_scan_exhaustion_panics :
    (parse none (List.replicate 16 0)).out = ParseOutcome.panic := rfl

/-- Claim C3 counterexample: a valid `ZeoTimestamp` frame constructed with
payload `[0x03, 0x10, 0x00, 0x00]` decodes, but the returned payload is
`[]`, not the payload the frame was built from: the four extracted
timestamp bytes are removed from the exposed payload. -/
theorem timesync_payload_not_returned_exactly :
    (parse none (mkFrame 157 3 0 0 9 138 [3, 16, 0, 0])).out
      = ParseOutcome.ok (some (0x1003, 0, 0, DataType.ZeoTimestamp, [])) ∧
    ([] : List Nat) ≠ [3, 16, 0, 0] :=
  ⟨rfl, by decide⟩

/-- Claim C3 (amended): for every byte sequence forming a valid frame
whose recognized data type is neither the time-sync nor the version type,
`parse` returns the decoded tuple carrying the classified identifier and
the exact payload bytes used to construct the frame, and records the
exact sequence number in the sequence state. -/
theorem valid_frame_decoded_exact (prev : Option Nat)
    (tt_lb ss0 ss1 seqnum dtype : Nat) (payload : List Nat)
    (h4 : 4 ≤ payload.length) (h65 : payload.length ≤ 65534)
    (hrec : (DataType.fromByte dtype).isInvalid = false)
    (hts : DataType.fromByte dtype ≠ DataType.ZeoTimestamp)
    (hver : DataType.fromByte dtype ≠ DataType.Version) :
    parse prev (mkFrame ((dtype + payload.sum) % 256) tt_lb ss0 ss1 seqnum dtype payload)
      = ⟨some seqnum, seqGaps prev [] seqnum, [],
         .ok (some (0, u16le ss0 ss1, 0, DataType.fromByte dtype, payload))⟩ :=
  parse_valid_frame prev tt_lb ss0 ss1 seqnum dtype payload h4 h65 hrec hts hver

/-- Witness for C3 at a concrete `Sqi` frame. -/
theorem valid_frame_decoded_exact_witness :
    parse none (mkFrame 141 0 0 0 5 132 [9, 0, 0, 0])
      = ⟨some 5, [], [], .ok (some (0, 0, 0, DataType.Sqi, [9, 0, 0, 0]))⟩ :=
  valid_frame_decoded_exact none 0 0 0 5 132 [9, 0, 0, 0]
    (by decide) (by decide) (by decide) (by decide) (by decide)

/-- Claim C4: whenever the marker is found with fewer than 14 bytes left,
the two marker bytes are pushed back unmodified (the ring again begins
with `0x41 0x34`) and the call returns the awaiting-more-data outcome. -/
theorem marker_pushback_awaiting_more_data (prev : Option Nat) (g rest : List Nat)
    (hg : containsMarker g = false) (hr : rest.length < 14)
    (hlen : 16 ≤ g.length + 2 + rest.length) :
    parse prev (g ++ 0x41 :: 0x34 :: rest)
      = ⟨prev, [], 0x41 :: 0x34 :: rest, .ok none⟩ := by
  have h16 : ¬ (g ++ 0x41 :: 0x34 :: rest).length ≤ 15 := by
    simp only [List.length_append, List.length_cons]
    omega
  obtain ⟨m, hm⟩ : ∃ m, (g ++ 0x41 :: 0x34 :: rest).length = m + 1 :=
    ⟨(g ++ 0x41 :: 0x34 :: rest).length - 1, by omega⟩
  unfold parse
  rw [hm]
  simp only [parseLoop]
  rw [if_neg h16]
  rw [parseStep_pushback 0 0 g rest hg hr]

/-- Witness for C4: 14 zero bytes then the bare marker. -/
theorem marker_pushback_awaiting_more_data_witness :
    parse none (List.replicate 14 0 ++ 0x41 :: 0x34 :: [])
      = ⟨none, [], 0x41 :: 0x34 :: [], .ok none⟩ :=
  marker_pushback_awaiting_more_data none (List.replicate 14 0) []
    (by decide) (by decide) (by decide)

/-- Claim C5: a marker-aligned frame whose declared length is not the
bitwise complement of the inverse-length field is rejected with the
length-mismatch error, and the reservoir afterwards holds exactly the
bytes after the marker, the checksum byte and the four length bytes. -/
theorem length_mismatch_rejected (prev : Option Nat)
    (c a b e f t s0 s1 sq dt : Nat) (rest2 : List Nat)
    (h4 : 4 ≤ rest2.length) (hne : u16le a b ≠ not16 (u16le e f)) :
    parse prev (0x41 :: 0x34 :: c :: a :: b :: e :: f :: t :: s0 :: s1 :: sq :: dt :: rest2)
      = ⟨prev, [], t :: s0 :: s1 :: sq :: dt :: rest2,
         .err "Invalid message length."⟩ := by
  have h16 : ¬ (0x41 :: 0x34 :: c :: a :: b :: e :: f :: t :: s0 :: s1 :: sq :: dt ::
      rest2).length ≤ 15 := by
    simp only [List.length_cons]
    omega
  obtain ⟨m, hm⟩ : ∃ m, (0x41 :: 0x34 :: c :: a :: b :: e :: f :: t :: s0 :: s1 :: sq ::
      dt :: rest2).length = m + 1 :=
    ⟨(0x41 :: 0x34 :: c :: a :: b :: e :: f :: t :: s0 :: s1 :: sq :: dt ::
      rest2).length - 1, by omega⟩
  unfold parse
  rw [hm]
  simp only [parseLoop]
  rw [if_neg h16]
  rw [parseStep_lengthMismatch 0 0 c a b e f t s0 s1 sq dt rest2 h4 hne]

/-- Witness for C5: declared length 1, inverse-length field 0. -/
theorem length_mismatch_rejected_witness :
    parse none (0x41 :: 0x34 :: 0 :: 1 :: 0 :: 0 :: 0 :: 0 :: 0 :: 0 :: 0 :: 0 ::
      [0, 0, 0, 0])
      = ⟨none, [], 0 :: 0 :: 0 :: 0 :: 0 :: [0, 0, 0, 0],
         .err "Invalid message length."⟩ :=
  length_mismatch_rejected none 0 1 0 0 0 0 0 0 0 0 [0, 0, 0, 0]
    (by decide) (by decide)

/-- Claim C6 (code bug): a frame declaring 9 payload bytes while only 5
remain is not classified as a truncated payload and the reservoir is not
restored: the 5 available bytes are consumed, the checksum is verified
against the short read, and here (checksum matching the short read) the
frame is accepted as complete with the short payload. -/
theorem truncated_payload_consumed_as_complete :
    parse none [0x41, 0x34, 147, 10, 0, 245, 255, 0, 0, 0, 0, 0x84, 1, 2, 3, 4, 5]
      = ⟨some 0, [], [], .ok (some (0, 0, 0, DataType.Sqi, [1, 2, 3, 4, 5]))⟩ :=
  rfl

/-- Claim C7 (code bug): the version (and full-timestamp) state does not
persist across `parse` calls: a call decoding a `Version` frame reports
version 3, but the next call, decoding an `Sqi` frame, reports version 0
again because the locals restart at 0 on every call. -/
theorem clock_state_reset_between_calls :
    parse none (mkFrame 6 0 0 0 0 3 [3, 0, 0, 0])
      = ⟨some 0, [], [], .ok (some (0, 0, 3, DataType.Version, []))⟩ ∧
    parse (some 0) (mkFrame 141 0 0 0 1 132 [9, 0, 0, 0])
      = ⟨some 1, [], [], .ok (some (0, 0, 0, DataType.Sqi, [9, 0, 0, 0]))⟩ ∧
    (0 : Nat) ≠ 3 :=
  ⟨rfl, rfl, by decide⟩

end Rawzeo

namespace Rawzeo

/-- Claim C8: the sequence tracker (a) never blocks or rejects a frame —
the returned value and final ring are independent of the stored sequence
state; (b) on a parsed header it updates the state unconditionally to the
observed number and reports a mismatch against last-seen + 1 (mod 256) as
the wrapped difference; (c) sequence numbers 5, 6, 8 in three consecutive
valid frames produce a gap diagnostic of exactly 1 between the second and
third; (d) the header update and diagnostic happen even when the frame is
then rejected for a bad checksum. -/
theorem sequence_tracker_contract :
    (∀ (ring : List Nat) (p1 p2 : Option Nat),
        (parse p1 ring).out = (parse p2 ring).out ∧
        (parse p1 ring).ring = (parse p2 ring).ring) ∧
    (∀ p s : Nat,
        (parse (some p) (mkFrame 141 0 0 0 s 132 [9, 0, 0, 0])).prev = some s ∧
        (parse (some p) (mkFrame 141 0 0 0 s 132 [9, 0, 0, 0])).gaps
          = (if (p + 1) % 256 = s then []
             else [(s + 256 - (p + 1) % 256) % 256])) ∧
    ((parse none (mkFrame 141 0 0 0 5 132 [9, 0, 0, 0])).prev = some 5 ∧
     (parse none (mkFrame 141 0 0 0 5 132 [9, 0, 0, 0])).gaps = [] ∧
     (parse (some 5) (mkFrame 141 0 0 0 6 132 [9, 0, 0, 0])).prev = some 6 ∧
     (parse (some 5) (mkFrame 141 0 0 0 6 132 [9, 0, 0, 0])).gaps = [] ∧
     (parse (some 6) (mkFrame 141 0 0 0 8 132 [9, 0, 0, 0])).gaps = [1]) ∧
    parse (some 5) (mkFrame 140 0 0 0 7 132 [9, 0, 0, 0])
      = ⟨some 7, [1], [], .err "Invalid checksum."⟩ := by
  refine ⟨fun ring p1 p2 => parse_indep ring p1 p2, fun p s => ?_, ?_, ?_⟩
  · have h : parse (some p) (mkFrame 141 0 0 0 s 132 [9, 0, 0, 0])
        = ⟨some s, seqGaps (some p) [] s, [],
           .ok (some (0, 0, 0, DataType.Sqi, [9, 0, 0, 0]))⟩ :=
      parse_valid_frame (some p) 0 0 0 s 132 [9, 0, 0, 0]
        (by decide) (by decide) (by decide) (by decide) (by decide)
    rw [h]
    refine ⟨rfl, ?_⟩
    show seqGaps (some p) [] s = _
    unfold seqGaps
    by_cases hp : (p + 1) % 256 = s <;> simp [hp]
  · exact ⟨rfl, rfl, rfl, rfl, rfl⟩
  · rfl

/-- Claim C9: the 32-bit little-endian extraction from a validated
time-sync or version payload pops the first three bytes unconditionally
and defaults only the fourth to 0 when absent, so it succeeds exactly on
payloads of at least 3 bytes; a validated `ZeoTimestamp` frame with
declared length 3 (two payload bytes) drives `parse` into the panic. -/
theorem u32_extraction_pops_three_unconditionally :
    (∀ (d0 d1 d2 d3 : Nat) (rest : List Nat),
        u32FromPayload (d0 :: d1 :: d2 :: d3 :: rest)
          = some (d0 + 256 * d1 + 65536 * d2 + 16777216 * d3, rest)) ∧
    (∀ d0 d1 d2 : Nat,
        u32FromPayload [d0, d1, d2] = some (d0 + 256 * d1 + 65536 * d2, [])) ∧
    (∀ d0 d1 : Nat, u32FromPayload [d0, d1] = none) ∧
    (parse none [0x41, 0x34, 138, 3, 0, 252, 255, 0, 0, 0, 0, 0x8A, 0, 0, 0, 0]).out
      = ParseOutcome.panic := by
  refine ⟨fun d0 d1 d2 d3 rest => ?_, fun d0 d1 d2 => ?_, fun d0 d1 => rfl, rfl⟩
  · simp [u32FromPayload, u32le]
  · simp [u32FromPayload, u32le]

/-- Claim C10: `EventType::from` maps `0x8F` to `HeadbandUnDocked` and
maps `0x0F` to `Invalid(0x0F)` although the declared discriminant of
`HeadbandUnDocked` is `0x0F`; every other recognized variant is reached
from its own declared discriminant. -/
theorem eventtype_from_discriminant_table :
    EventType.fromByte 0x8F = EventType.HeadbandUnDocked ∧
    EventType.fromByte 0x0F = EventType.Invalid 0x0F ∧
    EventType.HeadbandUnDocked.discriminant = 0x0F ∧
    EventType.fromByte EventType.NightStart.discriminant = EventType.NightStart ∧
    EventType.fromByte EventType.SleepOnset.discriminant = EventType.SleepOnset ∧
    EventType.fromByte EventType.HeadbandDocked.discriminant = EventType.HeadbandDocked ∧
    EventType.fromByte EventType.AlarmOff.discriminant = EventType.AlarmOff ∧
    EventType.fromByte EventType.AlarmSnooze.discriminant = EventType.AlarmSnooze ∧
    EventType.fromByte EventType.AlarmPlay.discriminant = EventType.AlarmPlay ∧
    EventType.fromByte EventType.NightEnd.discriminant = EventType.NightEnd ∧
    EventType.fromByte EventType.NewHeadband.discriminant = EventType.NewHeadband := by
  decide

end Rawzeo
